import Mathlib

/-!
Verification of the `lic` command-line client (last-in-championship CLI).

The Rust sources under `cli/src` are shallowly embedded: each client
operation of `api.rs` becomes a pure Lean function from the data it reads
(configuration, parameters, the HTTP response it receives) to the value or
error it produces, and each command handler of `commands/*.rs` becomes a
function from the loaded `Config` and its flags to either an error or the
single client call it issues.  Serialization (serde_json) is modelled by a
JSON value type; chrono date formatting/parsing is modelled at the string
level for the `%Y-%m-%d` format the client uses.
-/

namespace LIC

/-- Calendar date as held by a chrono `NaiveDate` (year, month, day).
`NaiveDate` only holds calendar-valid dates; validity bounds appear as
hypotheses where proofs need them. -/
structure Date where
  year : Nat
  month : Nat
  day : Nat
deriving Repr, DecidableEq

/-- Decimal digit character, as produced by chrono's zero-padded numeric
formatting.  Arguments are always below 10 at use sites. -/
def digitChar : Nat → Char
  | 0 => '0'
  | 1 => '1'
  | 2 => '2'
  | 3 => '3'
  | 4 => '4'
  | 5 => '5'
  | 6 => '6'
  | 7 => '7'
  | 8 => '8'
  | 9 => '9'
  | _ => ' '

/-- Value of a decimal digit character. -/
def digitVal (c : Char) : Option Nat :=
  if 48 ≤ c.toNat ∧ c.toNat ≤ 57 then some (c.toNat - 48) else none

/-- chrono `format("%Y-%m-%d")`: zero-padded year (4), month (2), day (2),
for years below 10000 (a `NaiveDate` in the tool's range). -/
def formatDate (d : Date) : String :=
  String.mk [digitChar (d.year / 1000), digitChar (d.year / 100 % 10),
    digitChar (d.year / 10 % 10), digitChar (d.year % 10), '-',
    digitChar (d.month / 10), digitChar (d.month % 10), '-',
    digitChar (d.day / 10), digitChar (d.day % 10)]

/-- chrono `NaiveDate::parse_from_str(s, "%Y-%m-%d")` restricted to the
zero-padded form the client itself emits (calendar-range validation of the
external library is not re-modelled; every string this development parses
was produced from an in-range `Date`). -/
def parseDate (s : String) : Option Date :=
  match s.toList with
  | [y1, y2, y3, y4, h1, m1, m2, h2, d1, d2] =>
    if h1 = '-' ∧ h2 = '-' then
      match digitVal y1, digitVal y2, digitVal y3, digitVal y4,
            digitVal m1, digitVal m2, digitVal d1, digitVal d2 with
      | some a, some b, some c, some d, some e, some f, some g, some h =>
        some ⟨a * 1000 + b * 100 + c * 10 + d, e * 10 + f, g * 10 + h⟩
      | _, _, _, _, _, _, _, _ => none
    else none
  | _ => none

/-- `Api` struct of `api.rs`: base URL plus the (possibly empty) token. -/
structure Api where
  base_url : String
  token : String
deriving Repr, DecidableEq

/-- `Api::new`: `token.unwrap_or_default()` turns an absent token into `""`. -/
def Api.new (base_url : String) (token : Option String) : Api :=
  ⟨base_url, token.getD ""⟩

/-- The query-parameter pairs pushed by `query_data` in `api.rs`, in program
order: `from`, `to`, `user` when present, then always `mode`, then `status`
and `limit` when present. -/
def queryParams (from_ to_ : Option Date) (user : Option String) (mode : String)
    (status : Option String) (limit : Option Nat) : List (String × String) :=
  let qp : List (String × String) := []
  let qp := match from_ with
    | some f => qp ++ [("from", formatDate f)]
    | none => qp
  let qp := match to_ with
    | some t => qp ++ [("to", formatDate t)]
    | none => qp
  let qp := match user with
    | some u => qp ++ [("user", u)]
    | none => qp
  let qp := qp ++ [("mode", mode)]
  let qp := match status with
    | some s => qp ++ [("status", s)]
    | none => qp
  let qp := match limit with
    | some l => qp ++ [("limit", Nat.repr l)]
    | none => qp
  qp

/-- URL built by `query_data` in `api.rs`: `{base}/api/query/{period}` plus a
`?`-prefixed `&`-joined list of `k=v` fragments when any parameter exists. -/
def queryDataUrl (api : Api) (period : String) (from_ to_ : Option Date)
    (user : Option String) (mode : String) (status : Option String)
    (limit : Option Nat) : String :=
  let url := api.base_url ++ "/api/query/" ++ period
  let qp := queryParams from_ to_ user mode status limit
  if qp.isEmpty then url
  else url ++ "?" ++ String.intercalate "&" (qp.map fun kv => kv.1 ++ "=" ++ kv.2)

/-- The query string as the spec phrases it: one `k=v` fragment per supplied
parameter, in the fixed order from/to/user/mode/status/limit, `mode` always
present, omitted parameters skipped entirely. -/
def specQueryFragments (from_ to_ : Option Date) (user : Option String)
    (mode : String) (status : Option String) (limit : Option Nat) : List String :=
  (from_.map fun f => "from" ++ "=" ++ formatDate f).toList ++
  (to_.map fun t => "to" ++ "=" ++ formatDate t).toList ++
  (user.map fun u => "user" ++ "=" ++ u).toList ++
  ["mode" ++ "=" ++ mode] ++
  (status.map fun s => "status" ++ "=" ++ s).toList ++
  (limit.map fun l => "limit" ++ "=" ++ Nat.repr l).toList

/-- JSON values (serde_json `Value`); numbers are modelled as rationals,
with the finite doubles embedded in them. -/
inductive Json where
  | null
  | bool (b : Bool)
  | num (q : ℚ)
  | str (s : String)
  | arr (items : List Json)
  | obj (fields : List (String × Json))
deriving Repr

/-- serde_json `Value::as_str`. -/
def Json.asStr : Json → Option String
  | .str s => some s
  | _ => none

/-- Field access `value[key]` followed by the presence check: `none` both
when the value is not an object and when the key is absent (serde_json
indexing yields `Null` in those cases, and `Null.as_str()` is `None`). -/
def Json.getField : Json → String → Option Json
  | .obj fields, k => fields.lookup k
  | _, _ => none

/-- An HTTP response as the client observes it: status code, raw body text,
and the result of parsing the body as JSON (`none` when the body is not
valid JSON). -/
structure HttpResponse where
  status : Nat
  body : String
  json : Option Json

/-- reqwest `StatusCode::is_success()`: the 2xx class. -/
def statusIsSuccess (s : Nat) : Bool := 200 ≤ s && s < 300

/-- The errors produced by `api.rs`, by construction site.  Each anyhow
error is identified by the arguments of the `format!`/`anyhow!` call that
built it; `message` below renders the exact message string. -/
inductive ApiError where
  /-- `login`: status was not 200; carries the raw body text. -/
  | loginFailed (body : String)
  /-- `login`: status 200 but the body was not valid JSON. -/
  | jsonParse (body : String)
  /-- `login`: status 200, valid JSON, but no string `token` field. -/
  | noTokenInResponse
  /-- `handle_response`: non-2xx status; carries status and raw body. -/
  | requestFailed (status : Nat) (body : String)
  /-- `handle_response`: 2xx but the body failed to decode; carries body. -/
  | decodeFailed (body : String)
  /-- `log_attendance`: non-2xx status; `anyhow!("{}", error_text)` carries
  the raw body text only. -/
  | plainBody (body : String)
deriving Repr, DecidableEq

/-- The message text of each error (reqwest's status `Display` also appends
a canonical reason phrase after the code; the code's decimal digits are
rendered either way, which is all the proofs use). -/
def ApiError.message : ApiError → String
  | .loginFailed b => "Login failed: " ++ b
  | .jsonParse _ => "error decoding response body"
  | .noTokenInResponse => "No token in response"
  | .requestFailed s b => "API request failed: " ++ Nat.repr s ++ " - " ++ b
  | .decodeFailed b => "Failed to parse response: " ++ b
  | .plainBody b => b

/-- `Api::login` in `api.rs`: non-200 → `Login failed: {body}`; otherwise
parse the JSON body and read `data["token"].as_str()`, failing with
`No token in response` when it is not a string. -/
def apiLogin (r : HttpResponse) : Except ApiError String :=
  if r.status ≠ 200 then .error (.loginFailed r.body)
  else
    match r.json with
    | none => .error (.jsonParse r.body)
    | some data =>
      match (data.getField "token").bind Json.asStr with
      | some token => .ok token
      | none => .error .noTokenInResponse

/-- `Api::handle_response` in `api.rs`, parameterized by the typed decoder:
non-2xx → `API request failed: {status} - {text}`; otherwise decode the
body, wrapping decode failures as `Failed to parse response: {text}`. -/
def handleResponse {α : Type} (decode : Json → Option α) (r : HttpResponse) :
    Except ApiError α :=
  if statusIsSuccess r.status then
    match r.json with
    | none => .error (.decodeFailed r.body)
    | some j =>
      match decode j with
      | some v => .ok v
      | none => .error (.decodeFailed r.body)
  else .error (.requestFailed r.status r.body)

/-- `AttendanceEntry` in `models.rs`. -/
structure AttendanceEntry where
  date : String
  time : String
  name : String
  status : String
deriving Repr, DecidableEq

/-- serde serialization of `AttendanceEntry` (derive, field order). -/
def attendanceEntryToJson (e : AttendanceEntry) : Json :=
  .obj [("date", .str e.date), ("time", .str e.time),
        ("name", .str e.name), ("status", .str e.status)]

/-- An outgoing HTTP request as the client builds it. -/
structure HttpRequest where
  method : String
  url : String
  headers : List (String × String)
  body : Option Json
deriving Repr

/-- The request built by `Api::log_attendance`: POST to `{base}/api/log`
with header `Authorization: Bearer {self.token}` — unconditionally, using
the stored token string (empty when constructed with `None`). -/
def logAttendanceRequest (api : Api) (entry : AttendanceEntry) : HttpRequest :=
  { method := "POST"
    url := api.base_url ++ "/api/log"
    headers := [("Authorization", "Bearer " ++ api.token)]
    body := some (attendanceEntryToJson entry) }

/-- Response handling of `Api::log_attendance`: success → `()`; otherwise
the error is `anyhow!("{}", error_text)` — the raw body alone. -/
def logAttendanceHandle (r : HttpResponse) : Except ApiError Unit :=
  if statusIsSuccess r.status then .ok ()
  else .error (.plainBody r.body)

/-- `Api::auth_headers`: bearer Authorization plus JSON Accept header. -/
def authHeaders (token : String) : List (String × String) :=
  [("Authorization", "Bearer " ++ token), ("Accept", "application/json")]

/-- URL built by `Api::get_rankings`: `{base}/api/rankings/{period}` with
`/{date}` appended when a date is given. -/
def getRankingsUrl (api : Api) (period : String) (date : Option String) : String :=
  let url := api.base_url ++ "/api/rankings/" ++ period
  match date with
  | some d => url ++ "/" ++ d
  | none => url

/-- A 64-bit float as serde_json handles it: finite values (embedded into
the rationals) or the non-finite ones.  serde_json writes non-finite
floats as `null`, and refuses `null` when deserializing an `f64`. -/
inductive F64 where
  | finite (q : ℚ)
  | nan
  | inf
  | neginf
deriving Repr, DecidableEq

/-- serde_json serialization of an `f64` value. -/
def F64.toJson : F64 → Json
  | .finite q => .num q
  | _ => .null

/-- serde_json deserialization into an `f64` field. -/
def f64FromJson : Json → Option F64
  | .num q => some (.finite q)
  | _ => none

/-- serde_json serialization of an `i32` field. -/
def i32ToJson (n : ℤ) : Json := .num (n : ℚ)

/-- serde_json deserialization into an `i32` field: an integral number in
the `i32` range. -/
def i32FromJson : Json → Option ℤ
  | .num q => if q.den = 1 ∧ -(2 ^ 31) ≤ q.num ∧ q.num < 2 ^ 31 then some q.num else none
  | _ => none

/-- serde serialization of an `Option<i32>` field (derive: `None` → null). -/
def optI32ToJson : Option ℤ → Json
  | some n => i32ToJson n
  | none => .null

/-- serde deserialization of an `Option<i32>` field: an absent field or a
`null` is `None`. -/
def optI32FromJson : Option Json → Option (Option ℤ)
  | none => some none
  | some .null => some none
  | some j => (i32FromJson j).map some

/-- chrono's serde serialization of an `Option<NaiveDate>` field:
`%Y-%m-%d` string, `None` → null. -/
def optDateToJson : Option Date → Json
  | some d => .str (formatDate d)
  | none => .null

/-- chrono's serde deserialization of an `Option<NaiveDate>` field. -/
def optDateFromJson : Option Json → Option (Option Date)
  | none => some none
  | some .null => some none
  | some j => (j.asStr.bind parseDate).map some

/-- `RankingStats` in `models.rs` (five `i32` counters). -/
structure RankingStats where
  in_office : ℤ
  remote : ℤ
  sick : ℤ
  leave : ℤ
  days : ℤ
deriving Repr, DecidableEq

/-- `Ranking` in `models.rs`. -/
structure Ranking where
  name : String
  score : F64
  streak : Option ℤ
  average_arrival_time : String
  stats : RankingStats
deriving Repr, DecidableEq

/-- `Streak` in `models.rs`. -/
structure Streak where
  username : String
  current_streak : ℤ
  max_streak : ℤ
  streak_start : Option Date
deriving Repr, DecidableEq

/-- `QueryResult` in `models.rs`. -/
structure QueryResult where
  date : String
  name : String
  status : String
  time : String
  score : F64
  streak : Option ℤ
deriving Repr, DecidableEq

/-- serde serialization of `RankingStats` (derive, declaration order). -/
def rankingStatsToJson (s : RankingStats) : Json :=
  .obj [("in_office", i32ToJson s.in_office), ("remote", i32ToJson s.remote),
        ("sick", i32ToJson s.sick), ("leave", i32ToJson s.leave),
        ("days", i32ToJson s.days)]

/-- serde deserialization of `RankingStats` (by field name). -/
def rankingStatsFromJson (j : Json) : Option RankingStats := do
  let in_office ← (j.getField "in_office").bind i32FromJson
  let remote ← (j.getField "remote").bind i32FromJson
  let sick ← (j.getField "sick").bind i32FromJson
  let leave ← (j.getField "leave").bind i32FromJson
  let days ← (j.getField "days").bind i32FromJson
  pure ⟨in_office, remote, sick, leave, days⟩

/-- serde serialization of `Ranking` (derive, declaration order). -/
def rankingToJson (r : Ranking) : Json :=
  .obj [("name", .str r.name), ("score", r.score.toJson),
        ("streak", optI32ToJson r.streak),
        ("average_arrival_time", .str r.average_arrival_time),
        ("stats", rankingStatsToJson r.stats)]

/-- serde deserialization of `Ranking` (by field name). -/
def rankingFromJson (j : Json) : Option Ranking := do
  let name ← (j.getField "name").bind Json.asStr
  let score ← (j.getField "score").bind f64FromJson
  let streak ← optI32FromJson (j.getField "streak")
  let avg ← (j.getField "average_arrival_time").bind Json.asStr
  let stats ← (j.getField "stats").bind rankingStatsFromJson
  pure ⟨name, score, streak, avg, stats⟩

/-- serde serialization of `Streak` (derive, declaration order). -/
def streakToJson (s : Streak) : Json :=
  .obj [("username", .str s.username),
        ("current_streak", i32ToJson s.current_streak),
        ("max_streak", i32ToJson s.max_streak),
        ("streak_start", optDateToJson s.streak_start)]

/-- serde deserialization of `Streak` (by field name). -/
def streakFromJson (j : Json) : Option Streak := do
  let username ← (j.getField "username").bind Json.asStr
  let current_streak ← (j.getField "current_streak").bind i32FromJson
  let max_streak ← (j.getField "max_streak").bind i32FromJson
  let streak_start ← optDateFromJson (j.getField "streak_start")
  pure ⟨username, current_streak, max_streak, streak_start⟩

/-- serde deserialization of `QueryResult`.  In `models.rs` the struct
derives only `Deserialize` — no serializer for it exists in the program. -/
def queryResultFromJson (j : Json) : Option QueryResult := do
  let date ← (j.getField "date").bind Json.asStr
  let name ← (j.getField "name").bind Json.asStr
  let status ← (j.getField "status").bind Json.asStr
  let time ← (j.getField "time").bind Json.asStr
  let score ← (j.getField "score").bind f64FromJson
  let streak ← optI32FromJson (j.getField "streak")
  pure ⟨date, name, status, time, score, streak⟩

/-- serde deserialization of the elements of a JSON array, one by one, in
order. -/
def decodeListAux {α : Type} (dec : Json → Option α) : List Json → Option (List α)
  | [] => some []
  | j :: rest => do
    let v ← dec j
    let vs ← decodeListAux dec rest
    pure (v :: vs)

/-- serde deserialization of a `Vec<T>`: a JSON array decoded elementwise,
in order. -/
def decodeList {α : Type} (dec : Json → Option α) : Json → Option (List α)
  | .arr items => decodeListAux dec items
  | _ => none

/-- `Config` in `config.rs`. -/
structure Config where
  api_url : String
  username : String
  api_token : Option String
deriving Repr, DecidableEq

/-- `Config::with_updates`: replace `api_url`/`username` when given. -/
def Config.with_updates (c : Config) (api_url username : Option String) : Config :=
  let c := match api_url with
    | some url => { c with api_url := url }
    | none => c
  match username with
    | some name => { c with username := name }
    | none => c

/-- One client call, recording the operation and its arguments as the
command handlers invoke them. -/
inductive ClientCall where
  | getRankings (token period : String) (date : Option String)
  | getStreaks (token : String)
  | getUserStats (token username : String)
  | queryData (token period : String) (from_ to_ : Option Date)
      (user : Option String) (mode : String) (status : Option String)
      (limit : Option Nat)
deriving Repr, DecidableEq

/-- The exact message of the fail-fast token check in the command
handlers. -/
def notLoggedInError : String := "Not logged in. Please run `lic login` first."

/-- `RankingsCommand::run` up to its single client call: check the token
from the config; absent → fail with the not-logged-in error before any
request; present → call `get_rankings(token, period, date)`. -/
def rankingsCommandRun (config : Config) (period : String)
    (date : Option String) : Except String ClientCall :=
  match config.api_token with
  | none => .error notLoggedInError
  | some token => .ok (.getRankings token period date)

/-- `StreaksCommand::run` up to its single client call. -/
def streaksCommandRun (config : Config) : Except String ClientCall :=
  match config.api_token with
  | none => .error notLoggedInError
  | some token => .ok (.getStreaks token)

/-- `StatsCommand::run` up to its single client call: the username is the
`--user` flag or the configured one; the token check precedes the call. -/
def statsCommandRun (config : Config) (userFlag : Option String) :
    Except String ClientCall :=
  let username := userFlag.getD config.username
  match config.api_token with
  | none => .error notLoggedInError
  | some token => .ok (.getUserStats token username)

/-- `.map(parse).transpose()?` on an optional `%Y-%m-%d` date flag. -/
def parseDateFlag (flag : Option String) : Except String (Option Date) :=
  match flag with
  | none => .ok none
  | some s =>
    match parseDate s with
    | some d => .ok (some d)
    | none => .error "premature end of input"

/-- `QueryCommand::run` up to its single client call: the token check comes
first, then the date flags are parsed, then `query_data` is called. -/
def queryCommandRun (config : Config) (period : String)
    (fromFlag toFlag user : Option String) (mode : String)
    (status : Option String) (limit : Option Nat) : Except String ClientCall :=
  match config.api_token with
  | none => .error notLoggedInError
  | some token => do
    let from_ ← parseDateFlag fromFlag
    let to_ ← parseDateFlag toFlag
    pure (.queryData token period from_ to_ user mode status limit)

/-- `LoginCommand::run` after the credentials are gathered, as a function
of the remote login's outcome.  The first component is the config handed to
`Config::save` (`none` = `save` is never called); the untouched input
`config` is only read, never written back. -/
def loginCommandRun (config : Config) (username : String)
    (loginResult : Except ApiError String) :
    Option Config × Except ApiError Unit :=
  match loginResult with
  | .ok token =>
    (some { config with username := username, api_token := some token }, .ok ())
  | .error e => (none, .error e)

/-- `ConfigCommand::run`: apply the `--api-url`/`--username` flags, or,
when both are absent, take both values from the interactive prompts; the
resulting config is always saved.  `api_token` is never assigned. -/
def configCommandRun (config : Config) (apiUrlFlag usernameFlag : Option String)
    (interactiveUrl interactiveName : String) : Config :=
  let modified := apiUrlFlag.isSome || usernameFlag.isSome
  let config := match apiUrlFlag with
    | some url => { config with api_url := url }
    | none => config
  let config := match usernameFlag with
    | some name => { config with username := name }
    | none => config
  if modified then config
  else { config with api_url := interactiveUrl, username := interactiveName }

/-- The rank cell of each table row built by `RankingsCommand::run`: the
row for the element at index `i` displays `(i + 1).to_string()`. -/
def rankingsRankColumn (rankings : List Ranking) : List String :=
  rankings.enum.map fun p => Nat.repr (p.1 + 1)

/-- A concrete ranking, matching the spec's mock-server scenario (score
9.5 = 19/2, streak 3). -/
def exRanking : Ranking :=
  ⟨"alice", .finite (Rat.mk' 19 2), some 3, "08:55", ⟨5, 0, 0, 0, 5⟩⟩

/-- The `i32` value range. -/
abbrev I32Range (n : ℤ) : Prop := -(2 ^ 31) ≤ n ∧ n < 2 ^ 31

/-- Dates covered by the `%Y-%m-%d` round trip: four-digit years; chrono's
`NaiveDate` keeps month in 1–12 and day in 1–31, well below 100. -/
abbrev DateInRange (d : Date) : Prop :=
  d.year < 10000 ∧ d.month < 100 ∧ d.day < 100

/-- Rewriting helper: fold a computed literal append under a right-nested
append. -/
theorem append_lit_left (a b c : String) (h : a ++ b = c) (x : String) :
    a ++ (b ++ x) = c ++ x := by
  rw [← String.append_assoc, h]

/-- C1: every `query_data` URL is the base URL plus `/api/query/{period}`,
then `?` and exactly the supplied parameters as `k=v` fragments joined by
`&` in the fixed order from/to/user/mode/status/limit with `mode` always
present and absent parameters skipped; concretely, for period `day`,
`from = 2024-01-01`, mode `last-in` and everything else absent the path is
`/api/query/day?from=2024-01-01&mode=last-in`. -/
theorem c1_query_url (api : Api) (period : String) (from_ to_ : Option Date)
    (user : Option String) (mode : String) (status : Option String)
    (limit : Option Nat) :
    queryDataUrl api period from_ to_ user mode status limit =
      api.base_url ++ "/api/query/" ++ period ++ "?" ++
        String.intercalate "&" (specQueryFragments from_ to_ user mode status limit) ∧
    queryDataUrl (Api.new "" none) "day" (some ⟨2024, 1, 1⟩) none none "last-in"
        none none = "/api/query/day?from=2024-01-01&mode=last-in" := by
  constructor
  · cases from_ <;> cases to_ <;> cases user <;> cases status <;> cases limit <;>
      simp [queryDataUrl, queryParams, specQueryFragments, String.intercalate,
        String.append_assoc, append_lit_left "from" "=" "from=" rfl,
        append_lit_left "to" "=" "to=" rfl, append_lit_left "user" "=" "user=" rfl,
        append_lit_left "mode" "=" "mode=" rfl,
        append_lit_left "status" "=" "status=" rfl,
        append_lit_left "limit" "=" "limit=" rfl]
  · decide

/-- C2 (amended): on a non-2xx response, the four operations decoded by
`handle_response` fail with an error carrying the status code and the raw
body verbatim (the message embeds both), while `log_attendance` fails with
the raw body text alone and `login` (non-200) with a prefixed raw body —
neither of those two carries the status code. -/
theorem c2_error_bodies {α : Type} (decode : Json → Option α) (s : Nat)
    (b : String) (j : Option Json) (hs : statusIsSuccess s = false) :
    handleResponse decode ⟨s, b, j⟩ = .error (.requestFailed s b) ∧
    (∃ pre mid, (ApiError.requestFailed s b).message = pre ++ Nat.repr s ++ (mid ++ b)) ∧
    logAttendanceHandle ⟨s, b, j⟩ = .error (.plainBody b) ∧
    (ApiError.plainBody b).message = b ∧
    (s ≠ 200 → apiLogin ⟨s, b, j⟩ = .error (.loginFailed b) ∧
      (ApiError.loginFailed b).message = "Login failed: " ++ b) := by
  refine ⟨?_, ⟨"API request failed: ", " - ", ?_⟩, ?_, rfl, ?_⟩
  · simp [handleResponse, hs]
  · simp [ApiError.message, String.append_assoc]
  · simp [logAttendanceHandle, hs]
  · intro h200
    simp [apiLogin, h200, ApiError.message]

/-- Witness for C2 at status 400, body `oops`. -/
theorem c2_error_bodies_witness :
    handleResponse (fun j => some j) ⟨400, "oops", none⟩ =
      .error (.requestFailed 400 "oops") ∧
    logAttendanceHandle ⟨400, "oops", none⟩ = .error (.plainBody "oops") := by
  have h := c2_error_bodies (fun j => some j) 400 "oops" none (by decide)
  exact ⟨h.1, h.2.2.1⟩

/-- C2 counterexample: `log_attendance` on a 400 response with body `oops`
raises an error whose entire message is `oops` — the status code 400
appears nowhere in it, so the error does not carry the status code. -/
theorem c2_counterexample :
    logAttendanceHandle ⟨400, "oops", none⟩ = .error (.plainBody "oops") ∧
    (ApiError.plainBody "oops").message = "oops" ∧
    ¬ List.IsInfix "400".toList "oops".toList := by
  exact ⟨rfl, rfl, by decide⟩

/-- C3: with no token in the config, each of the rankings, streaks, stats
and query commands fails with the not-logged-in error; the `Except` value
carries no `ClientCall`, i.e. the client operation is never reached. -/
theorem c3_guard (config : Config) (h : config.api_token = none)
    (period : String) (date : Option String) (userFlag : Option String)
    (fromFlag toFlag user : Option String) (mode : String)
    (status : Option String) (limit : Option Nat) :
    rankingsCommandRun config period date = .error notLoggedInError ∧
    streaksCommandRun config = .error notLoggedInError ∧
    statsCommandRun config userFlag = .error notLoggedInError ∧
    queryCommandRun config period fromFlag toFlag user mode status limit =
      .error notLoggedInError := by
  refine ⟨?_, ?_, ?_, ?_⟩ <;>
    simp [rankingsCommandRun, streaksCommandRun, statsCommandRun,
      queryCommandRun, h]

/-- Witness for C3: a token-less config rejects the stats command. -/
theorem c3_guard_witness :
    statsCommandRun ⟨"http://localhost:4030", "alice", none⟩ none =
      .error notLoggedInError :=
  (c3_guard ⟨"http://localhost:4030", "alice", none⟩ rfl "day" none none
    none none none "last-in" none none).2.2.1

/-- C4: `login` fails with the auth error that surfaces the response body
verbatim (message `Login failed: {body}`) exactly when the status is not
200; with status 200 and a string `token` field in the JSON body, it
returns that field's value. -/
theorem c4_login (r : HttpResponse) :
    ((∃ b, apiLogin r = .error (.loginFailed b) ∧ b = r.body ∧
        (ApiError.loginFailed b).message = "Login failed: " ++ r.body) ↔
      r.status ≠ 200) ∧
    (∀ j t, r.status = 200 → r.json = some j →
      j.getField "token" = some (.str t) → apiLogin r = .ok t) := by
  constructor
  · constructor
    · rintro ⟨b, hb, -, -⟩ h200
      rw [apiLogin, if_neg (by simp [h200])] at hb
      split at hb
      · exact absurd hb (by simp)
      · split at hb
        · exact absurd hb (by simp)
        · exact absurd hb (by simp)
    · intro h200
      refine ⟨r.body, ?_, rfl, rfl⟩
      rw [apiLogin, if_pos h200]
  · intro j t h200 hj htok
    rw [apiLogin, if_neg (by simp [h200]), hj]
    show (match (j.getField "token").bind Json.asStr with
      | some token => Except.ok token
      | none => Except.error ApiError.noTokenInResponse) = Except.ok t
    rw [htok]
    rfl

/-- Witness for C4: status 200 with `{"token": "abc"}` logs in with token
`abc`; status 401 with body `denied` fails surfacing the body. -/
theorem c4_login_witness :
    apiLogin ⟨200, "", some (.obj [("token", .str "abc")])⟩ = .ok "abc" ∧
    (∃ b, apiLogin ⟨401, "denied", none⟩ = .error (.loginFailed b) ∧
      b = "denied" ∧ (ApiError.loginFailed b).message = "Login failed: " ++ "denied") :=
  ⟨(c4_login ⟨200, "", some (.obj [("token", .str "abc")])⟩).2
      (.obj [("token", .str "abc")]) "abc" rfl rfl rfl,
    (c4_login ⟨401, "denied", none⟩).1.mpr (by decide)⟩

/-- C10: a 200 response whose JSON body has no string-valued `token` field
(missing, null, or non-string) makes `login` fail with the
`No token in response` error. -/
theorem c10_no_token (r : HttpResponse) (j : Json) (h200 : r.status = 200)
    (hj : r.json = some j)
    (htok : (j.getField "token").bind Json.asStr = none) :
    apiLogin r = .error .noTokenInResponse := by
  rw [apiLogin, if_neg (by simp [h200]), hj]
  show (match (j.getField "token").bind Json.asStr with
    | some token => Except.ok token
    | none => Except.error ApiError.noTokenInResponse) =
      Except.error ApiError.noTokenInResponse
  rw [htok]

/-- Witness for C10: status 200 with body `{"token": null}`. -/
theorem c10_no_token_witness :
    apiLogin ⟨200, "", some (.obj [("token", .null)])⟩ =
      .error .noTokenInResponse :=
  c10_no_token ⟨200, "", some (.obj [("token", .null)])⟩
    (.obj [("token", .null)]) rfl rfl rfl

/-- C5 (amended): when the remote login succeeds with token `t`, the login
command saves a config holding the entered username and the present token
`t` (exactly as returned by the server, possibly empty); when it fails,
the command propagates the error and `save` is never called, leaving the
stored session unchanged. -/
theorem c5_login_session (config : Config) (username : String)
    (r : HttpResponse) :
    (∀ t, apiLogin r = .ok t →
      loginCommandRun config username (apiLogin r) =
        (some { config with username := username, api_token := some t },
          .ok ())) ∧
    (∀ e, apiLogin r = .error e →
      loginCommandRun config username (apiLogin r) = (none, .error e)) := by
  constructor
  · intro t ht; rw [ht]; rfl
  · intro e he; rw [he]; rfl

/-- Witness for C5: a successful login with token `tok123` saves username
and token; a failed login saves nothing. -/
theorem c5_login_session_witness :
    loginCommandRun ⟨"http://x", "", none⟩ "alice"
        (apiLogin ⟨200, "", some (.obj [("token", .str "tok123")])⟩) =
      (some ⟨"http://x", "alice", some "tok123"⟩, .ok ()) ∧
    loginCommandRun ⟨"http://x", "", none⟩ "alice"
        (apiLogin ⟨401, "denied", none⟩) =
      (none, .error (.loginFailed "denied")) :=
  ⟨(c5_login_session ⟨"http://x", "", none⟩ "alice"
      ⟨200, "", some (.obj [("token", .str "tok123")])⟩).1 "tok123" rfl,
    (c5_login_session ⟨"http://x", "", none⟩ "alice"
      ⟨401, "denied", none⟩).2 (.loginFailed "denied") rfl⟩

/-- C5 counterexample: the server may answer 200 with `{"token": ""}`; the
remote login then succeeds and the saved session token is present but
empty, refuting the claimed non-emptiness. -/
theorem c5_counterexample :
    loginCommandRun ⟨"http://x", "", none⟩ "alice"
        (apiLogin ⟨200, "", some (.obj [("token", .str "")])⟩) =
      (some ⟨"http://x", "alice", some ""⟩, .ok ()) ∧
    ("" : String).length = 0 :=
  ⟨rfl, rfl⟩

/-- C6: a config-command invocation (flag-driven or interactive) and
`Config::with_updates` may change `api_url` and `username` only: the
resulting saved config carries the input's `api_token` untouched. -/
theorem c6_config_frame (config : Config)
    (apiUrlFlag usernameFlag : Option String)
    (interactiveUrl interactiveName : String) :
    (configCommandRun config apiUrlFlag usernameFlag interactiveUrl
        interactiveName).api_token = config.api_token ∧
    (config.with_updates apiUrlFlag usernameFlag).api_token =
      config.api_token := by
  cases apiUrlFlag <;> cases usernameFlag <;>
    simp [configCommandRun, Config.with_updates]

/-- C8 counterexample: a client constructed with `None` for the token
still sends an Authorization header, with the credential `Bearer ` (empty
token) — contradicting the claim that no bearer credential is sent. -/
theorem c8_counterexample :
    (logAttendanceRequest (Api.new "http://x" none)
        ⟨"2024-01-01", "09:00", "alice", "in-office"⟩).headers =
      [("Authorization", "Bearer ")] := rfl

/-- C8 (amended): `log_attendance` always attaches exactly one
Authorization header of the form `Bearer {token}`, where the token is the
one the client was constructed with, defaulted to the empty string when
absent. -/
theorem c8_always_bearer (base : String) (token : Option String)
    (e : AttendanceEntry) :
    (logAttendanceRequest (Api.new base token) e).headers =
      [("Authorization", "Bearer " ++ token.getD "")] := by
  cases token <;> rfl

/-- Every decimal digit renders to a character that reads back to it. -/
theorem digitVal_digitChar : ∀ k < 10, digitVal (digitChar k) = some k := by
  decide

/-- `%Y-%m-%d` formatting followed by `%Y-%m-%d` parsing is the identity
on in-range dates. -/
theorem parseDate_formatDate (d : Date) (hy : d.year < 10000)
    (hm : d.month < 100) (hd : d.day < 100) :
    parseDate (formatDate d) = some d := by
  obtain ⟨y, m, dd⟩ := d
  simp only at hy hm hd
  have h1 := digitVal_digitChar (y / 1000) (by omega)
  have h2 := digitVal_digitChar (y / 100 % 10) (by omega)
  have h3 := digitVal_digitChar (y / 10 % 10) (by omega)
  have h4 := digitVal_digitChar (y % 10) (by omega)
  have h5 := digitVal_digitChar (m / 10) (by omega)
  have h6 := digitVal_digitChar (m % 10) (by omega)
  have h7 := digitVal_digitChar (dd / 10) (by omega)
  have h8 := digitVal_digitChar (dd % 10) (by omega)
  simp only [formatDate, parseDate, String.toList, h1, h2, h3, h4, h5, h6,
    h7, h8]
  simp only [and_self, if_true, reduceIte, Option.some.injEq, Date.mk.injEq]
  omega

/-- An in-range `i32` value round-trips through JSON. -/
theorem i32FromJson_i32ToJson (n : ℤ) (h1 : -(2 ^ 31) ≤ n) (h2 : n < 2 ^ 31) :
    i32FromJson (i32ToJson n) = some n := by
  have h1n : (-2147483648 : ℤ) ≤ n := by norm_num at h1 ⊢; exact h1
  have h2n : n < (2147483648 : ℤ) := by norm_num at h2 ⊢; exact h2
  simp [i32FromJson, i32ToJson, Rat.den_intCast, Rat.num_intCast, h1n, h2n]

/-- An in-range `Option<i32>` field round-trips through JSON. -/
theorem optI32_roundtrip (o : Option ℤ) (h : ∀ n ∈ o, I32Range n) :
    optI32FromJson (some (optI32ToJson o)) = some o := by
  cases o with
  | none => rfl
  | some n =>
    have hn := h n rfl
    have hr := i32FromJson_i32ToJson n hn.1 hn.2
    simp only [i32ToJson] at hr
    simp [optI32ToJson, optI32FromJson, i32ToJson, hr]

/-- An in-range `Option<NaiveDate>` field round-trips through JSON. -/
theorem optDate_roundtrip (o : Option Date) (h : ∀ d ∈ o, DateInRange d) :
    optDateFromJson (some (optDateToJson o)) = some o := by
  cases o with
  | none => rfl
  | some d =>
    have hd := h d rfl
    simp [optDateToJson, optDateFromJson, Json.asStr,
      parseDate_formatDate d hd.1 hd.2.1 hd.2.2]

/-- C7 (amended): serialize-then-deserialize is the identity on every
`Ranking` and `Streak` whose float score is finite and whose `i32`/date
fields are in their Rust ranges; `QueryResult` derives only `Deserialize`
in `models.rs`, so no serializer exists for it to round-trip. -/
theorem c7_roundtrip :
    (∀ r : Ranking, (∃ q, r.score = .finite q) →
      (∀ n ∈ r.streak, I32Range n) →
      I32Range r.stats.in_office → I32Range r.stats.remote →
      I32Range r.stats.sick → I32Range r.stats.leave →
      I32Range r.stats.days →
      rankingFromJson (rankingToJson r) = some r) ∧
    (∀ s : Streak, I32Range s.current_streak → I32Range s.max_streak →
      (∀ d ∈ s.streak_start, DateInRange d) →
      streakFromJson (streakToJson s) = some s) := by
  constructor
  · rintro ⟨name, score, streak, avg, ⟨a, b, c, d, e⟩⟩ ⟨q, rfl⟩ hstreak ha hb
      hc hd he
    simp [rankingToJson, rankingFromJson, rankingStatsToJson,
      rankingStatsFromJson, Json.getField, List.lookup, F64.toJson,
      f64FromJson, Json.asStr, optI32_roundtrip _ hstreak,
      i32FromJson_i32ToJson _ ha.1 ha.2, i32FromJson_i32ToJson _ hb.1 hb.2,
      i32FromJson_i32ToJson _ hc.1 hc.2, i32FromJson_i32ToJson _ hd.1 hd.2,
      i32FromJson_i32ToJson _ he.1 he.2]
  · rintro ⟨username, cur, mx, start⟩ hcur hmx hstart
    simp [streakToJson, streakFromJson, Json.getField, List.lookup,
      Json.asStr, optDate_roundtrip _ hstart,
      i32FromJson_i32ToJson _ hcur.1 hcur.2,
      i32FromJson_i32ToJson _ hmx.1 hmx.2]

/-- Witness for C7: the spec's example ranking and a concrete streak both
round-trip to themselves. -/
theorem c7_roundtrip_witness :
    rankingFromJson (rankingToJson exRanking) = some exRanking ∧
    streakFromJson (streakToJson ⟨"alice", 3, 7, some ⟨2024, 1, 1⟩⟩) =
      some ⟨"alice", 3, 7, some ⟨2024, 1, 1⟩⟩ :=
  ⟨c7_roundtrip.1 exRanking ⟨Rat.mk' 19 2, rfl⟩ (by decide) (by decide)
      (by decide) (by decide) (by decide) (by decide),
    c7_roundtrip.2 ⟨"alice", 3, 7, some ⟨2024, 1, 1⟩⟩ (by decide) (by decide)
      (by decide)⟩

/-- C7 counterexample: a `Ranking` whose score is the float NaN does not
round-trip — serde_json writes non-finite floats as `null`, and `null`
fails to deserialize back into the `f64` field, so deserialization yields
no value at all (in particular not a field-for-field equal `Ranking`). -/
theorem c7_counterexample :
    rankingFromJson (rankingToJson
      ⟨"alice", F64.nan, none, "08:55", ⟨0, 0, 0, 0, 0⟩⟩) = none := by
  rfl

/-- Decoding a JSON array element by element relates input and output
pointwise, in order: no reordering can occur. -/
theorem decodeListAux_forall2 {α : Type} (dec : Json → Option α) :
    ∀ (items : List Json) (vs : List α),
      decodeListAux dec items = some vs →
      List.Forall₂ (fun j v => dec j = some v) items vs := by
  intro items
  induction items with
  | nil =>
    intro vs h
    simp only [decodeListAux, Option.some.injEq] at h
    subst h
    exact .nil
  | cons j rest ih =>
    intro vs h
    simp only [decodeListAux] at h
    cases hj : dec j with
    | none => rw [hj] at h; simp at h
    | some v =>
      rw [hj] at h
      cases hrest : decodeListAux dec rest with
      | none => rw [hrest] at h; simp at h
      | some vs2 =>
        rw [hrest] at h
        simp at h
        subst h
        exact .cons hj (ih vs2 hrest)

/-- C9: the rankings request path is `/api/rankings/{period}` with a
`/{date}` segment appended exactly when a date is supplied; the decoded
list keeps the server's array order (element `i` of the result is the
decode of element `i` of the array — the client never re-sorts); and the
rank cell displayed for the `i`-th returned element is `i + 1`. -/
theorem c9_rankings (api : Api) (period : String) (d : String)
    (items : List Json) (rankings : List Ranking)
    (hdec : decodeList rankingFromJson (.arr items) = some rankings) :
    getRankingsUrl api period (some d) =
      api.base_url ++ "/api/rankings/" ++ period ++ "/" ++ d ∧
    getRankingsUrl api period none =
      api.base_url ++ "/api/rankings/" ++ period ∧
    List.Forall₂ (fun j r => rankingFromJson j = some r) items rankings ∧
    ∀ (i : Nat) (h : i < (rankingsRankColumn rankings).length),
      (rankingsRankColumn rankings)[i] = Nat.repr (i + 1) := by
  refine ⟨rfl, rfl, decodeListAux_forall2 _ items rankings hdec, ?_⟩
  intro i h
  have hlen : i < (rankings.enum.map fun p => Nat.repr (p.1 + 1)).length := h
  simp [rankingsRankColumn, List.getElem_map, List.getElem_enum]

/-- Witness for C9: a two-element array decodes to the two rankings in
order, and the second row displays rank `2`. -/
theorem c9_rankings_witness :
    getRankingsUrl (Api.new "http://x" none) "day" (some "2024-01-01") =
      "http://x" ++ "/api/rankings/" ++ "day" ++ "/" ++ "2024-01-01" ∧
    List.Forall₂ (fun j r => rankingFromJson j = some r)
      [rankingToJson exRanking, rankingToJson exRanking]
      [exRanking, exRanking] ∧
    (rankingsRankColumn [exRanking, exRanking]).get ⟨1, by decide⟩ = "2" := by
  have h := c9_rankings (Api.new "http://x" none) "day" "2024-01-01"
    [rankingToJson exRanking, rankingToJson exRanking] [exRanking, exRanking]
    (by decide)
  exact ⟨h.1, h.2.2.1, (h.2.2.2 1 (by decide)).trans rfl⟩

end LIC
